import Mathlib

/-!
Shallow embedding of the trivia-generation API route of the Kitakyushu
trivia repository: the in-memory per-client rate limiter, the Gemini
response parsing helpers, the model-client wrapper, the model-fallback
orchestration with length-correction retries, and the POST handler.

The provider is modelled as an oracle: a list of HTTP-level responses
consumed one per `callGemini` invocation, in order.  Machine integers are
`Int`/`Nat` (JavaScript numbers here are millisecond timestamps and small
counters, far from any overflow boundary).  String lengths are measured in
characters, as the spec states.
-/

/-- The `RATE_LIMIT_PER_MINUTE` constant of the route module. -/
def RATE_LIMIT_PER_MINUTE : Nat := 10

/-- One client key's entry in `rateLimitMap`: its recorded admission
timestamps in milliseconds. -/
abbrev RateState := List Int

/-- Source `isRateLimited(ip)`, viewed for a single client key: filter the stored
timestamps to the trailing 60-second window, store the filtered list,
reject when at least 10 remain (without recording the attempt), otherwise
append `now` and admit.  Returns `(limited, new stored list)`. -/
def isRateLimited (now : Int) (timestamps : RateState) : Bool × RateState :=
  let recent := timestamps.filter (fun t => decide (now - t < 60000))
  if RATE_LIMIT_PER_MINUTE ≤ recent.length then
    (true, recent)
  else
    (false, recent ++ [now])

/-- Repeated admission checks for one client key: process a list of
request times in order, threading the stored state; returns the list of
`limited` decisions and the final stored state. -/
def admissionRun : List Int → RateState → List Bool × RateState
  | [], st => ([], st)
  | t :: rest, st =>
    let step := isRateLimited t st
    let tail := admissionRun rest step.2
    (step.1 :: tail.1, tail.2)

/-- Source `buildUserPrompt(keyword)`: the initial user prompt. -/
def buildUserPrompt (keyword : String) : String :=
  "単語：「" ++ keyword ++ "」\n\n上記の単語から北九州に紐づくトリビアを1つ書いてください。\n必ず70〜100文字で、文末は「。」で完結させてください。途中で切らないでください。"

/-- Source `getRetryPrompt(currentLength)`: the correction prompt, branching on
whether the observed length is below 70 or above 100. -/
def getRetryPrompt (currentLength : Nat) : String :=
  if currentLength < 70 then
    "今の出力は" ++ toString currentLength ++ "文字で短すぎます。具体的なエピソードを追加して70文字以上にしてください。100文字は超えないでください。文末は「。」で完結させること。"
  else
    "今の出力は" ++ toString currentLength ++ "文字で長すぎます。余計な言葉を削って100文字以内に収めてください。70文字は下回らないでください。文末は「。」で完結させること。"

/-- Source `isValidLength(text)`: 70 ≤ length ≤ 100, in characters. -/
def isValidLength (text : String) : Bool :=
  decide (70 ≤ text.length) && decide (text.length ≤ 100)

/-- JavaScript `String.prototype.trim`: drop whitespace from both ends
(defined by structural recursion on the character list). -/
def jsTrim (s : String) : String :=
  ⟨((s.data.dropWhile Char.isWhitespace).reverse.dropWhile Char.isWhitespace).reverse⟩

/-- JavaScript `s.substring(0, n)`: the first `n` characters. -/
def jsTake (s : String) (n : Nat) : String :=
  ⟨s.data.take n⟩

/-- One `part` of a Gemini candidate's `content.parts`: the `thought`
flag (`true` when the part is internal reasoning) and the optional
`text` field (`none` when absent or not a string). -/
structure GPart where
  thought : Bool
  text : Option String
deriving Repr, DecidableEq

/-- A Gemini candidate's `content` object. -/
structure GContent where
  parts : List GPart
deriving Repr, DecidableEq

/-- One entry of the response's `candidates` array: the optional
`content` object and the optional `finishReason` string (`none` when the
field is absent; the empty string is also falsy in the source). -/
structure GCandidate where
  content : Option GContent
  finishReason : Option String
deriving Repr, DecidableEq

/-- The JSON body of a successful Gemini response, to the depth the
route inspects it (a missing `candidates` field behaves as the empty
array). -/
structure GeminiData where
  candidates : List GCandidate
deriving Repr, DecidableEq

/-- Source `extractText(data)`: from the first candidate's `content.parts`,
collect every non-thought part whose text trims to a non-empty string
(each part trimmed), join them and trim the whole; `null` when no usable
segment exists. -/
def extractText (data : GeminiData) : Option String :=
  match data.candidates.head? with
  | none => none
  | some candidate =>
    match candidate.content with
    | none => none
    | some content =>
      if content.parts.isEmpty then none
      else
        let textParts := content.parts.filterMap (fun part =>
          if part.thought then none
          else
            match part.text with
            | some t => if 0 < (jsTrim t).length then some (jsTrim t) else none
            | none => none)
        if textParts.isEmpty then none
        else some (jsTrim (String.join textParts))

/-- Source `getFinishReason(data)`: the first candidate's `finishReason` string,
with a missing or empty (falsy) value replaced by `"UNKNOWN"`. -/
def getFinishReason (data : GeminiData) : String :=
  match data.candidates.head? with
  | none => "UNKNOWN"
  | some candidate =>
    match candidate.finishReason with
    | none => "UNKNOWN"
    | some s => if s = "" then "UNKNOWN" else s

/-- A model configuration: name, output-token cap, and the optional
thinking budget. -/
structure ModelConfig where
  name : String
  maxOutputTokens : Nat
  thinkingBudget : Option Nat
deriving Repr, DecidableEq

/-- The `MODEL_CONFIGS` list: the static fallback-priority order. -/
def MODEL_CONFIGS : List ModelConfig :=
  [⟨"gemini-2.0-flash", 500, none⟩,
   ⟨"gemini-2.5-flash", 8192, some 0⟩,
   ⟨"gemini-2.0-flash-lite", 500, none⟩]

/-- What one `fetch` of the provider produced: an HTTP-success body, a
non-success status with its body text, or a thrown transport/timeout
error. -/
inductive HttpResponse where
  | ok (data : GeminiData)
  | err (status : Nat) (body : String)
  | exn (msg : String)
deriving Repr, DecidableEq

/-- The value `callGemini` resolves with. -/
structure GeminiRet where
  text : Option String
  finishReason : String
deriving Repr, DecidableEq

/-- Source `callGemini`: HTTP 404 yields the `NOT_FOUND` sentinel with null
text; any other non-success status raises an error carrying the status
and a truncated body; a success parses text and finish reason from the
body.  `Except.error` models a thrown exception. -/
def callGemini (resp : HttpResponse) : Except String GeminiRet :=
  match resp with
  | .exn m => .error m
  | .err status body =>
    if status = 404 then .ok ⟨none, "NOT_FOUND"⟩
    else .error ("HTTP " ++ toString status ++ ": " ++ jsTake body 200)
  | .ok data => .ok ⟨extractText data, getFinishReason data⟩

/-- One turn of the conversation sent to the provider (the single text
part is inlined). -/
structure Turn where
  role : String
  text : String
deriving Repr, DecidableEq

/-- Pop the next provider response from the oracle; an exhausted oracle
behaves as a thrown transport error. -/
def takeCall : List HttpResponse → HttpResponse × List HttpResponse
  | [] => (.exn "no response", [])
  | r :: rest => (r, rest)

/-- The `bestCandidate` update: replace only when the new candidate is
strictly longer than the current fallback (or none is held yet). -/
def updateBest (best : Option String) (candidate : String) : Option String :=
  match best with
  | none => some candidate
  | some b => if b.length < candidate.length then some candidate else some b

/-- Outcome of the length-correction loop for one model configuration:
`done` ends the loop normally with the last kept candidate; `threw`
models a retry call raising (caught by the per-configuration handler). -/
inductive LoopOut where
  | done (candidate : String) (msgs : List Turn) (best : Option String)
      (retries : Nat) (calls : List HttpResponse)
  | threw (msg : String) (best : Option String) (retries : Nat)
      (calls : List HttpResponse)
deriving Repr, DecidableEq

/-- The character-count retry loop (`for attempt in 0..3 while candidate
is out of range`): each iteration counts one correction, appends the
candidate as a model turn and the correction prompt as a user turn,
invokes the client again, stops keeping the current candidate when the
retry yields no text or is truncated, and otherwise continues with the
retry's text after updating the fallback tracker. -/
def correctionLoop : Nat → String → List Turn → Option String → Nat →
    List HttpResponse → LoopOut
  | 0, cand, msgs, best, retries, calls => .done cand msgs best retries calls
  | fuel + 1, cand, msgs, best, retries, calls =>
    if isValidLength cand then .done cand msgs best retries calls
    else
      let msgs' := msgs ++ [⟨"model", cand⟩, ⟨"user", getRetryPrompt cand.length⟩]
      let step := takeCall calls
      match callGemini step.1 with
      | .error m => .threw m best (retries + 1) step.2
      | .ok r =>
        match r.text with
        | none => .done cand msgs' best (retries + 1) step.2
        | some t =>
          if r.finishReason = "MAX_TOKENS" then
            .done cand msgs' best (retries + 1) step.2
          else
            correctionLoop fuel t msgs' (updateBest best t) (retries + 1) step.2

/-- Outcome of one model configuration's attempt: accepted in-range
answer, silent skip on NOT_FOUND (no failure recorded), or a caught
error recorded as the last failure. -/
inductive ConfigOut where
  | accepted (trivia : String) (best : Option String) (retries : Nat)
      (calls : List HttpResponse)
  | notFoundSkip (best : Option String) (retries : Nat)
      (calls : List HttpResponse)
  | failed (msg : String) (best : Option String) (retries : Nat)
      (calls : List HttpResponse)
deriving Repr, DecidableEq

/-- One model configuration's attempt: initial call, NOT_FOUND skip,
empty-result failure, truncation abandonment (after recording the
partial text in the fallback tracker), fallback-tracker update, the
correction loop, then acceptance when the final candidate is in range
and failure otherwise. -/
def runConfig (userPrompt : String) (best : Option String) (retries : Nat)
    (calls : List HttpResponse) : ConfigOut :=
  let msgs : List Turn := [⟨"user", userPrompt⟩]
  let step := takeCall calls
  match callGemini step.1 with
  | .error m => .failed m best retries step.2
  | .ok r =>
    match r.text with
    | none =>
      if r.finishReason = "NOT_FOUND" then .notFoundSkip best retries step.2
      else .failed "生成結果が空でした。" best retries step.2
    | some t =>
      if r.finishReason = "MAX_TOKENS" then
        .failed "レスポンスが途中で切れました (MAX_TOKENS)。" (updateBest best t) retries step.2
      else
        match correctionLoop 3 t msgs (updateBest best t) retries step.2 with
        | .threw m best' retries' calls' => .failed m best' retries' calls'
        | .done cand _ best' retries' calls' =>
          if isValidLength cand then .accepted cand best' retries' calls'
          else
            .failed ("文字数が範囲外です（" ++ toString cand.length ++ "文字）。")
              best' retries' calls'

/-- Final state of the escalation over all model configurations. -/
structure RunOut where
  answer : Option (String × String)
  best : Option String
  retries : Nat
  lastError : Option String
  calls : List HttpResponse
deriving Repr, DecidableEq

/-- The outer loop over `MODEL_CONFIGS`: stop at the first accepted
in-range answer (recording the configuration's name), skip NOT_FOUND
configurations without touching `lastError`, and record every other
failure in `lastError` before escalating. -/
def runModels (userPrompt : String) : List ModelConfig → Option String →
    Nat → Option String → List HttpResponse → RunOut
  | [], best, retries, lastErr, calls => ⟨none, best, retries, lastErr, calls⟩
  | cfg :: rest, best, retries, lastErr, calls =>
    match runConfig userPrompt best retries calls with
    | .accepted t best' retries' calls' =>
      ⟨some (t, cfg.name), best', retries', lastErr, calls'⟩
    | .notFoundSkip best' retries' calls' =>
      runModels userPrompt rest best' retries' lastErr calls'
    | .failed m best' retries' calls' =>
      runModels userPrompt rest best' retries' (some m) calls'

/-- The correction count held by a loop outcome. -/
def LoopOut.retriesOut : LoopOut → Nat
  | .done _ _ _ r _ => r
  | .threw _ _ r _ => r

/-- The remaining provider oracle held by a loop outcome. -/
def LoopOut.callsOut : LoopOut → List HttpResponse
  | .done _ _ _ _ c => c
  | .threw _ _ _ c => c

/-- The correction count held by a configuration outcome. -/
def ConfigOut.retriesOut : ConfigOut → Nat
  | .accepted _ _ r _ => r
  | .notFoundSkip _ r _ => r
  | .failed _ _ r _ => r

/-- The remaining provider oracle held by a configuration outcome. -/
def ConfigOut.callsOut : ConfigOut → List HttpResponse
  | .accepted _ _ _ c => c
  | .notFoundSkip _ _ c => c
  | .failed _ _ _ c => c

/-- The JSON response of the POST handler (the `mode` and `createdAt`
fields are constants of the environment and are omitted). -/
inductive ApiResponse where
  | success (trivia : String) (keyword : String) (retries : Nat) (model : String)
  | error (status : Nat) (code : String)
deriving Repr, DecidableEq

/-- Result of one POST call: the response, the client key's new rate
state, and the oracle's remaining provider responses (unchanged exactly
when the provider was never invoked). -/
structure PostResult where
  resp : ApiResponse
  rlState : RateState
  callsLeft : List HttpResponse
deriving Repr, DecidableEq

/-- The POST handler: configuration check, admission check (which
mutates the client's rate state before the body is examined), keyword
trim and validation, the model escalation, then the three-tier final
choice (in-range answer / fallback of length ≥ 10 tagged
`model = "fallback"` / generation-failed error). -/
def POST (apiKeyRaw : String) (now : Int) (rl : RateState)
    (bodyKeyword : Option String) (calls : List HttpResponse) : PostResult :=
  let API_KEY := jsTrim apiKeyRaw
  if API_KEY = "" then ⟨.error 500 "config_error", rl, calls⟩
  else
    let adm := isRateLimited now rl
    if adm.1 then ⟨.error 429 "rate_limited", adm.2, calls⟩
    else
      let keyword := jsTrim (bodyKeyword.getD "")
      if keyword = "" then ⟨.error 400 "validation_error", adm.2, calls⟩
      else if 30 < keyword.length then ⟨.error 400 "validation_error", adm.2, calls⟩
      else
        let out := runModels (buildUserPrompt keyword) MODEL_CONFIGS none 0 none calls
        match out.answer with
        | some a => ⟨.success a.1 keyword out.retries a.2, adm.2, out.calls⟩
        | none =>
          match out.best with
          | some b =>
            if 10 ≤ b.length then
              ⟨.success b keyword out.retries "fallback", adm.2, out.calls⟩
            else ⟨.error 500 "generation_failed", adm.2, out.calls⟩
          | none => ⟨.error 500 "generation_failed", adm.2, out.calls⟩

/-- A one-candidate Gemini body whose single part carries `t` and whose
finish reason is `fr`. -/
def mkData (t fr : String) : GeminiData :=
  ⟨[⟨some ⟨[⟨false, some t⟩]⟩, some fr⟩]⟩

/-- A 60-character demo text. -/
def demo60 : String := ⟨List.replicate 60 'x'⟩

/-- An 85-character demo text. -/
def demo85 : String := ⟨List.replicate 85 'x'⟩

/-- A 20-character demo text. -/
def demo20 : String := ⟨List.replicate 20 'x'⟩

/-- A 5-character demo text. -/
def demo5 : String := ⟨List.replicate 5 'x'⟩

/-! Rate limiter lemmas -/

theorem filter_recent_of_all (now : Int) (ts : List Int)
    (h : ∀ t ∈ ts, now - t < 60000) :
    ts.filter (fun t => decide (now - t < 60000)) = ts := by
  apply List.filter_eq_self.mpr
  intro a ha
  simpa using h a ha

theorem isRateLimited_low (now : Int) (ts : RateState)
    (h : (ts.filter (fun t => decide (now - t < 60000))).length < 10) :
    isRateLimited now ts
      = (false, ts.filter (fun t => decide (now - t < 60000)) ++ [now]) := by
  simp only [isRateLimited, RATE_LIMIT_PER_MINUTE]
  rw [if_neg (by omega)]

theorem isRateLimited_high (now : Int) (ts : RateState)
    (h : 10 ≤ (ts.filter (fun t => decide (now - t < 60000))).length) :
    isRateLimited now ts
      = (true, ts.filter (fun t => decide (now - t < 60000))) := by
  simp only [isRateLimited, RATE_LIMIT_PER_MINUTE]
  rw [if_pos h]

theorem admissionRun_spec (times : List Int) :
    ∀ st : RateState,
      (∀ s, (s ∈ st ∨ s ∈ times) → ∀ t ∈ times, t - s < 60000) →
      (admissionRun times st).1
          = (List.range times.length).map (fun k => decide (10 ≤ st.length + k))
        ∧ (admissionRun times st).2 = st ++ times.take (10 - st.length) := by
  induction times with
  | nil => intro st H; simp [admissionRun]
  | cons t rest ih =>
    intro st H
    have hall : ∀ s ∈ st, t - s < 60000 := fun s hs => H s (Or.inl hs) t (by simp)
    have hfil : st.filter (fun s => decide (t - s < 60000)) = st :=
      filter_recent_of_all t st hall
    by_cases hlen : 10 ≤ st.length
    · have hrl : isRateLimited t st = (true, st) := by
        rw [isRateLimited_high t st (by rw [hfil]; exact hlen), hfil]
      have IH := ih st (by
        intro s hs u hu
        exact H s (hs.imp id (fun h2 => List.mem_cons_of_mem t h2)) u
          (List.mem_cons_of_mem t hu))
      constructor
      · simp only [admissionRun, hrl]
        rw [IH.1, List.length_cons, List.range_succ_eq_map]
        simp only [List.map_cons, List.map_map]
        refine List.cons_eq_cons.mpr ⟨?_, ?_⟩
        · rw [Nat.add_zero, decide_eq_true hlen]
        · apply List.map_congr_left
          intro k _
          have h1 : (10 : Nat) ≤ st.length + k := by omega
          have h2 : (10 : Nat) ≤ st.length + (k + 1) := by omega
          simp only [Function.comp]
          rw [decide_eq_true h1, decide_eq_true h2]
      · simp only [admissionRun, hrl]
        rw [IH.2, Nat.sub_eq_zero_of_le hlen]
        simp
    · have hrl : isRateLimited t st = (false, st ++ [t]) := by
        rw [isRateLimited_low t st (by rw [hfil]; omega), hfil]
      have IH := ih (st ++ [t]) (by
        intro s hs u hu
        rcases hs with hs | hs
        · rcases List.mem_append.mp hs with hs | hs
          · exact H s (Or.inl hs) u (List.mem_cons_of_mem t hu)
          · have : s = t := by simpa using hs
            exact H s (Or.inr (by simp [this])) u (List.mem_cons_of_mem t hu)
        · exact H s (Or.inr (List.mem_cons_of_mem t hs)) u (List.mem_cons_of_mem t hu))
      constructor
      · simp only [admissionRun, hrl]
        rw [IH.1, List.length_cons, List.range_succ_eq_map]
        simp only [List.map_cons, List.map_map, List.length_append,
          List.length_singleton]
        refine List.cons_eq_cons.mpr ⟨?_, ?_⟩
        · rw [Nat.add_zero, decide_eq_false (by omega)]
        · apply List.map_congr_left
          intro k _
          have heq : st.length + 1 + k = st.length + (k + 1) := by omega
          simp only [Function.comp]
          rw [heq]
      · simp only [admissionRun, hrl]
        rw [IH.2]
        have h9 : 10 - st.length = (9 - st.length) + 1 := by omega
        have h9' : 10 - (st ++ [t]).length = 9 - st.length := by
          simp only [List.length_append, List.length_singleton]; omega
        rw [h9', h9, List.take_succ_cons, List.append_assoc]
        simp

/-! POST reduction helpers -/

theorem POST_rate_limited (key : String) (now : Int) (rl : RateState)
    (bodyKeyword : Option String) (calls : List HttpResponse)
    (hkey : jsTrim key ≠ "") (h : (isRateLimited now rl).1 = true) :
    POST key now rl bodyKeyword calls
      = ⟨.error 429 "rate_limited", (isRateLimited now rl).2, calls⟩ := by
  simp only [POST]
  rw [if_neg hkey, h]
  simp

theorem POST_invalid_keyword (key : String) (now : Int) (rl : RateState)
    (bodyKeyword : Option String) (calls : List HttpResponse)
    (hkey : jsTrim key ≠ "")
    (hadm : (isRateLimited now rl).1 = false)
    (hbad : jsTrim (bodyKeyword.getD "") = ""
      ∨ 30 < (jsTrim (bodyKeyword.getD "")).length) :
    POST key now rl bodyKeyword calls
      = ⟨.error 400 "validation_error", (isRateLimited now rl).2, calls⟩ := by
  simp only [POST]
  rw [if_neg hkey, hadm]
  rcases hbad with hb | hb
  · rw [hb]; simp
  · have hne : jsTrim (bodyKeyword.getD "") ≠ "" := by
      intro e; rw [e] at hb; simp at hb
    simp only [Bool.false_eq_true, if_false]
    rw [if_neg hne, if_pos hb]

/-! Claims about admission control and validation -/

/-- C5: each admission check first discards the client's timestamps older
than 60 seconds; if at least 10 remain the request is rejected and no
timestamp is recorded for the attempt, otherwise the current timestamp is
appended and the request is admitted.  Hence a client issuing 11 requests
within one 60-second window has the first 10 admitted and the 11th
rejected (leaving exactly the 10 admitted timestamps stored), admission
resumes at any later time at which fewer than 10 stored timestamps remain
inside the window (in particular once the oldest falls outside it), and a
rate-limited client receives the 429 `rate_limited` error from POST. -/
theorem rate_limiter_window (now now₂ : Int) (ts : RateState) (times : List Int)
    (hlen : times.length = 11)
    (hwin : ∀ s ∈ times, ∀ t ∈ times, t - s < 60000)
    (hres : ((times.take 10).filter (fun t => decide (now₂ - t < 60000))).length < 10) :
    ((((ts.filter (fun t => decide (now - t < 60000))).length < 10) →
        isRateLimited now ts
          = (false, ts.filter (fun t => decide (now - t < 60000)) ++ [now]))
      ∧ ((10 ≤ (ts.filter (fun t => decide (now - t < 60000))).length) →
        isRateLimited now ts = (true, ts.filter (fun t => decide (now - t < 60000)))))
    ∧ (admissionRun times []).1
        = [false, false, false, false, false, false, false, false, false, false, true]
    ∧ (admissionRun times []).2 = times.take 10
    ∧ isRateLimited now₂ (admissionRun times []).2
        = (false, (times.take 10).filter (fun t => decide (now₂ - t < 60000)) ++ [now₂])
    ∧ (∀ (key : String) (bodyKeyword : Option String) (calls : List HttpResponse)
        (now₃ : Int) (st : RateState), jsTrim key ≠ "" →
        (isRateLimited now₃ st).1 = true →
        (POST key now₃ st bodyKeyword calls).resp = .error 429 "rate_limited") := by
  have spec := admissionRun_spec times [] (by
    intro s hs u hu
    rcases hs with hs | hs
    · exact absurd hs (List.not_mem_nil s)
    · exact hwin s hs u hu)
  have hsnd : (admissionRun times []).2 = times.take 10 := by
    simpa using spec.2
  refine ⟨⟨fun h => isRateLimited_low now ts h, fun h => isRateLimited_high now ts h⟩,
    ?_, hsnd, ?_, ?_⟩
  · rw [spec.1, hlen]
    decide
  · rw [hsnd]
    exact isRateLimited_low now₂ (times.take 10) hres
  · intro key bk calls now₃ st hkey hlim
    rw [POST_rate_limited key now₃ st bk calls hkey hlim]

/-- Witness for C5: eleven requests at times 0..10 ms, then a check at
time 60000 ms, when the oldest stored timestamp has left the window. -/
theorem rate_limiter_window_witness :
    (([0, 1, 2, 3, 4, 5, 6, 7, 8, 9, 10] : List Int).length = 11)
    ∧ (∀ s ∈ ([0, 1, 2, 3, 4, 5, 6, 7, 8, 9, 10] : List Int),
        ∀ t ∈ ([0, 1, 2, 3, 4, 5, 6, 7, 8, 9, 10] : List Int), t - s < 60000)
    ∧ ((((([0, 1, 2, 3, 4, 5, 6, 7, 8, 9, 10] : List Int).take 10).filter
          (fun t => decide ((60000 : Int) - t < 60000))).length < 10)
    ∧ (((((([] : RateState)).filter (fun t => decide ((5 : Int) - t < 60000))).length < 10) →
        isRateLimited 5 ([] : RateState)
          = (false, (([] : RateState)).filter (fun t => decide ((5 : Int) - t < 60000)) ++ [5]))
      ∧ ((10 ≤ ((([] : RateState)).filter (fun t => decide ((5 : Int) - t < 60000))).length) →
        isRateLimited 5 ([] : RateState)
          = (true, (([] : RateState)).filter (fun t => decide ((5 : Int) - t < 60000)))))
    ∧ (admissionRun ([0, 1, 2, 3, 4, 5, 6, 7, 8, 9, 10] : List Int) []).1
        = [false, false, false, false, false, false, false, false, false, false, true]
    ∧ (admissionRun ([0, 1, 2, 3, 4, 5, 6, 7, 8, 9, 10] : List Int) []).2
        = ([0, 1, 2, 3, 4, 5, 6, 7, 8, 9, 10] : List Int).take 10
    ∧ isRateLimited 60000 (admissionRun ([0, 1, 2, 3, 4, 5, 6, 7, 8, 9, 10] : List Int) []).2
        = (false, (([0, 1, 2, 3, 4, 5, 6, 7, 8, 9, 10] : List Int).take 10).filter
            (fun t => decide ((60000 : Int) - t < 60000)) ++ [60000])
    ∧ (∀ (key : String) (bodyKeyword : Option String) (calls : List HttpResponse)
        (now₃ : Int) (st : RateState), jsTrim key ≠ "" →
        (isRateLimited now₃ st).1 = true →
        (POST key now₃ st bodyKeyword calls).resp = .error 429 "rate_limited")) :=
  ⟨by decide, by decide, by decide,
    rate_limiter_window 5 60000 [] [0, 1, 2, 3, 4, 5, 6, 7, 8, 9, 10]
      (by decide) (by decide) (by decide)⟩

/-- C6: when the API key is configured and the client is admitted, a
keyword that is empty after trimming, or longer than 30 characters after
trimming, yields the `validation_error` response with HTTP status 400 and
leaves the provider oracle untouched: the provider is never invoked. -/
theorem validation_rejects_bad_keyword (key : String) (now : Int) (rl : RateState)
    (bodyKeyword : Option String) (calls : List HttpResponse)
    (hkey : jsTrim key ≠ "")
    (hadm : (isRateLimited now rl).1 = false)
    (hbad : jsTrim (bodyKeyword.getD "") = ""
      ∨ 30 < (jsTrim (bodyKeyword.getD "")).length) :
    POST key now rl bodyKeyword calls
      = ⟨.error 400 "validation_error", (isRateLimited now rl).2, calls⟩ :=
  POST_invalid_keyword key now rl bodyKeyword calls hkey hadm hbad

/-- Witness for C6: a keyword of spaces only, trimming to empty. -/
theorem validation_rejects_bad_keyword_witness :
    jsTrim "k" ≠ ""
    ∧ (isRateLimited 0 []).1 = false
    ∧ (jsTrim ((some "  ").getD "") = "" ∨ 30 < (jsTrim ((some "  ").getD "")).length)
    ∧ POST "k" 0 [] (some "  ") []
        = ⟨.error 400 "validation_error", (isRateLimited 0 []).2, []⟩ :=
  ⟨by decide, by decide, Or.inl (by decide),
    validation_rejects_bad_keyword "k" 0 [] (some "  ") []
      (by decide) (by decide) (Or.inl (by decide))⟩

/-- C9: the admission check runs before keyword validation: an
invalid-keyword request from an admitted client still appends its
timestamp to the client's window (consuming one of the 10 slots), and a
client already at the limit receives the 429 `rate_limited` error rather
than the 400 validation error although its keyword would also fail
validation. -/
theorem admission_precedes_validation (key : String) (now : Int) (rl : RateState)
    (bodyKeyword : Option String) (calls : List HttpResponse)
    (hkey : jsTrim key ≠ "")
    (hbad : jsTrim (bodyKeyword.getD "") = ""
      ∨ 30 < (jsTrim (bodyKeyword.getD "")).length) :
    (((rl.filter (fun t => decide (now - t < 60000))).length < 10) →
      POST key now rl bodyKeyword calls
        = ⟨.error 400 "validation_error",
           rl.filter (fun t => decide (now - t < 60000)) ++ [now], calls⟩)
    ∧ ((10 ≤ (rl.filter (fun t => decide (now - t < 60000))).length) →
      POST key now rl bodyKeyword calls
        = ⟨.error 429 "rate_limited",
           rl.filter (fun t => decide (now - t < 60000)), calls⟩) := by
  constructor
  · intro h
    have hrl := isRateLimited_low now rl h
    rw [POST_invalid_keyword key now rl bodyKeyword calls hkey (by rw [hrl]) hbad, hrl]
  · intro h
    have hrl := isRateLimited_high now rl h
    rw [POST_rate_limited key now rl bodyKeyword calls hkey (by rw [hrl]), hrl]

/-- Witness for C9: an over-length keyword from a client under the limit
and from a client at the limit. -/
theorem admission_precedes_validation_witness :
    jsTrim "k" ≠ ""
    ∧ (jsTrim ((some "aaaaaaaaaaaaaaaaaaaaaaaaaaaaaaaaaaa").getD "") = ""
      ∨ 30 < (jsTrim ((some "aaaaaaaaaaaaaaaaaaaaaaaaaaaaaaaaaaa").getD "")).length)
    ∧ (((((([] : RateState)).filter (fun t => decide ((7 : Int) - t < 60000))).length < 10) →
        POST "k" 7 [] (some "aaaaaaaaaaaaaaaaaaaaaaaaaaaaaaaaaaa") []
          = ⟨.error 400 "validation_error",
             (([] : RateState)).filter (fun t => decide ((7 : Int) - t < 60000)) ++ [7], []⟩)
      ∧ ((10 ≤ ((([] : RateState)).filter (fun t => decide ((7 : Int) - t < 60000))).length) →
        POST "k" 7 [] (some "aaaaaaaaaaaaaaaaaaaaaaaaaaaaaaaaaaa") []
          = ⟨.error 429 "rate_limited",
             (([] : RateState)).filter (fun t => decide ((7 : Int) - t < 60000)), []⟩)) :=
  ⟨by decide, Or.inr (by decide),
    admission_precedes_validation "k" 7 [] (some "aaaaaaaaaaaaaaaaaaaaaaaaaaaaaaaaaaa") []
      (by decide) (Or.inr (by decide))⟩

/-! Correction loop lemmas -/

theorem takeCall_length (calls : List HttpResponse) :
    calls.length ≤ (takeCall calls).2.length + 1 := by
  cases calls <;> simp [takeCall]

theorem correctionLoop_valid (fuel : Nat) (cand : String) (msgs : List Turn)
    (best : Option String) (r : Nat) (calls : List HttpResponse)
    (h : isValidLength cand = true) :
    correctionLoop (fuel + 1) cand msgs best r calls
      = .done cand msgs best r calls := by
  simp [correctionLoop, h]

theorem correctionLoop_threw (fuel : Nat) (cand : String) (msgs : List Turn)
    (best : Option String) (r : Nat) (c : HttpResponse) (rest : List HttpResponse)
    (m : String)
    (hv : isValidLength cand = false)
    (hc : callGemini c = .error m) :
    correctionLoop (fuel + 1) cand msgs best r (c :: rest)
      = .threw m best (r + 1) rest := by
  simp [correctionLoop, hv, takeCall, hc]

theorem correctionLoop_stop_noText (fuel : Nat) (cand : String) (msgs : List Turn)
    (best : Option String) (r : Nat) (c : HttpResponse) (rest : List HttpResponse)
    (fr : String)
    (hv : isValidLength cand = false)
    (hc : callGemini c = .ok ⟨none, fr⟩) :
    correctionLoop (fuel + 1) cand msgs best r (c :: rest)
      = .done cand (msgs ++ [⟨"model", cand⟩, ⟨"user", getRetryPrompt cand.length⟩])
          best (r + 1) rest := by
  simp [correctionLoop, hv, takeCall, hc]

theorem correctionLoop_stop_truncated (fuel : Nat) (cand : String) (msgs : List Turn)
    (best : Option String) (r : Nat) (c : HttpResponse) (rest : List HttpResponse)
    (t : String)
    (hv : isValidLength cand = false)
    (hc : callGemini c = .ok ⟨some t, "MAX_TOKENS"⟩) :
    correctionLoop (fuel + 1) cand msgs best r (c :: rest)
      = .done cand (msgs ++ [⟨"model", cand⟩, ⟨"user", getRetryPrompt cand.length⟩])
          best (r + 1) rest := by
  simp [correctionLoop, hv, takeCall, hc]

theorem correctionLoop_continue (fuel : Nat) (cand : String) (msgs : List Turn)
    (best : Option String) (r : Nat) (c : HttpResponse) (rest : List HttpResponse)
    (t fr : String)
    (hv : isValidLength cand = false)
    (hc : callGemini c = .ok ⟨some t, fr⟩) (hfr : fr ≠ "MAX_TOKENS") :
    correctionLoop (fuel + 1) cand msgs best r (c :: rest)
      = correctionLoop fuel t
          (msgs ++ [⟨"model", cand⟩, ⟨"user", getRetryPrompt cand.length⟩])
          (updateBest best t) (r + 1) rest := by
  simp [correctionLoop, hv, takeCall, hc, hfr]

theorem correctionLoop_bounds (fuel : Nat) :
    ∀ (cand : String) (msgs : List Turn) (best : Option String) (r : Nat)
      (calls : List HttpResponse),
      r ≤ (correctionLoop fuel cand msgs best r calls).retriesOut
      ∧ (correctionLoop fuel cand msgs best r calls).retriesOut ≤ r + fuel
      ∧ calls.length ≤ (correctionLoop fuel cand msgs best r calls).callsOut.length + fuel := by
  induction fuel with
  | zero =>
    intro cand msgs best r calls
    simp [correctionLoop, LoopOut.retriesOut, LoopOut.callsOut]
  | succ fuel ih =>
    intro cand msgs best r calls
    have htc := takeCall_length calls
    by_cases hv : isValidLength cand
    · rw [correctionLoop_valid fuel cand msgs best r calls hv]
      simp only [LoopOut.retriesOut, LoopOut.callsOut]
      omega
    · simp only [correctionLoop, hv, Bool.false_eq_true, if_false]
      rcases hcg : callGemini (takeCall calls).1 with m | ret
      · simp [LoopOut.retriesOut, LoopOut.callsOut]
        omega
      · obtain ⟨text, fr⟩ := ret
        cases text with
        | none =>
          simp [LoopOut.retriesOut, LoopOut.callsOut]
          omega
        | some t =>
          by_cases hfr : fr = "MAX_TOKENS"
          · simp [hfr, LoopOut.retriesOut, LoopOut.callsOut]
            omega
          · simp only [hfr, if_false]
            have := ih t
              (msgs ++ [⟨"model", cand⟩, ⟨"user", getRetryPrompt cand.length⟩])
              (updateBest best t) (r + 1) (takeCall calls).2
            refine ⟨by omega, by omega, by omega⟩

/-! Per-configuration lemmas -/

theorem runConfig_error (up : String) (best : Option String) (r : Nat)
    (c : HttpResponse) (rest : List HttpResponse) (m : String)
    (hc : callGemini c = .error m) :
    runConfig up best r (c :: rest) = .failed m best r rest := by
  simp [runConfig, takeCall, hc]

theorem runConfig_notFound (up : String) (best : Option String) (r : Nat)
    (c : HttpResponse) (rest : List HttpResponse)
    (hc : callGemini c = .ok ⟨none, "NOT_FOUND"⟩) :
    runConfig up best r (c :: rest) = .notFoundSkip best r rest := by
  simp [runConfig, takeCall, hc]

theorem runConfig_emptyText (up : String) (best : Option String) (r : Nat)
    (c : HttpResponse) (rest : List HttpResponse) (fr : String)
    (hc : callGemini c = .ok ⟨none, fr⟩) (hfr : fr ≠ "NOT_FOUND") :
    runConfig up best r (c :: rest) = .failed "生成結果が空でした。" best r rest := by
  simp [runConfig, takeCall, hc, hfr]

theorem runConfig_truncated (up : String) (best : Option String) (r : Nat)
    (c : HttpResponse) (rest : List HttpResponse) (t : String)
    (hc : callGemini c = .ok ⟨some t, "MAX_TOKENS"⟩) :
    runConfig up best r (c :: rest)
      = .failed "レスポンスが途中で切れました (MAX_TOKENS)。" (updateBest best t) r rest := by
  simp [runConfig, takeCall, hc]

theorem runConfig_ok (up : String) (best : Option String) (r : Nat)
    (c : HttpResponse) (rest : List HttpResponse) (t fr : String)
    (hc : callGemini c = .ok ⟨some t, fr⟩) (hfr : fr ≠ "MAX_TOKENS") :
    runConfig up best r (c :: rest)
      = (match correctionLoop 3 t [⟨"user", up⟩] (updateBest best t) r rest with
         | .threw m best' retries' calls' => .failed m best' retries' calls'
         | .done cand _ best' retries' calls' =>
           if isValidLength cand then .accepted cand best' retries' calls'
           else
             .failed ("文字数が範囲外です（" ++ toString cand.length ++ "文字）。")
               best' retries' calls') := by
  simp [runConfig, takeCall, hc, hfr]

theorem runConfig_bounds (up : String) (best : Option String) (r : Nat)
    (calls : List HttpResponse) :
    r ≤ (runConfig up best r calls).retriesOut
    ∧ (runConfig up best r calls).retriesOut ≤ r + 3
    ∧ calls.length ≤ (runConfig up best r calls).callsOut.length + 4 := by
  rcases calls with _ | ⟨c, rest⟩
  · simp [runConfig, takeCall, callGemini, ConfigOut.retriesOut, ConfigOut.callsOut]
  · cases hcg : callGemini c with
    | error m =>
      rw [runConfig_error up best r c rest m hcg]
      simp only [ConfigOut.retriesOut, ConfigOut.callsOut, List.length_cons]
      omega
    | ok ret =>
      obtain ⟨text, fr⟩ := ret
      cases text with
      | none =>
        by_cases hfr : fr = "NOT_FOUND"
        · subst hfr
          rw [runConfig_notFound up best r c rest hcg]
          simp only [ConfigOut.retriesOut, ConfigOut.callsOut, List.length_cons]
          omega
        · rw [runConfig_emptyText up best r c rest fr hcg hfr]
          simp only [ConfigOut.retriesOut, ConfigOut.callsOut, List.length_cons]
          omega
      | some t =>
        by_cases hfr : fr = "MAX_TOKENS"
        · subst hfr
          rw [runConfig_truncated up best r c rest t hcg]
          simp only [ConfigOut.retriesOut, ConfigOut.callsOut, List.length_cons]
          omega
        · rw [runConfig_ok up best r c rest t fr hcg hfr]
          have hl := correctionLoop_bounds 3 t [⟨"user", up⟩] (updateBest best t) r rest
          cases hout : correctionLoop 3 t [⟨"user", up⟩] (updateBest best t) r rest with
          | done cand m2 b2 r2 c2 =>
            rw [hout] at hl
            simp only [LoopOut.retriesOut, LoopOut.callsOut] at hl
            dsimp only
            by_cases hvl : isValidLength cand = true
            · simp only [hvl, if_true, ConfigOut.retriesOut, ConfigOut.callsOut,
                List.length_cons]
              omega
            · have hvl' : isValidLength cand = false := by
                revert hvl; cases isValidLength cand <;> simp
              simp only [hvl', Bool.false_eq_true, if_false, ite_false,
                ConfigOut.retriesOut, ConfigOut.callsOut, List.length_cons]
              omega
          | threw m2 b2 r2 c2 =>
            rw [hout] at hl
            simp only [LoopOut.retriesOut, LoopOut.callsOut] at hl
            simp only [ConfigOut.retriesOut, ConfigOut.callsOut, List.length_cons]
            omega

theorem runConfig_accepted_valid (up : String) (best : Option String) (r : Nat)
    (calls : List HttpResponse) (t : String) (b' : Option String) (r' : Nat)
    (c' : List HttpResponse)
    (h : runConfig up best r calls = .accepted t b' r' c') :
    isValidLength t = true := by
  simp only [runConfig] at h
  repeat' split at h
  all_goals simp_all

/-! Escalation lemmas -/

theorem runModels_bounds (up : String) (cfgs : List ModelConfig) :
    ∀ (best : Option String) (r : Nat) (lastE : Option String)
      (calls : List HttpResponse),
      r ≤ (runModels up cfgs best r lastE calls).retries
      ∧ (runModels up cfgs best r lastE calls).retries ≤ r + 3 * cfgs.length := by
  induction cfgs with
  | nil =>
    intro best r lastE calls
    simp [runModels]
  | cons cfg rest ih =>
    intro best r lastE calls
    have hb := runConfig_bounds up best r calls
    simp only [runModels]
    rcases hrc : runConfig up best r calls
      with ⟨tt, b2, r2, c2⟩ | ⟨b2, r2, c2⟩ | ⟨m2, b2, r2, c2⟩
    · rw [hrc] at hb
      simp only [ConfigOut.retriesOut, ConfigOut.callsOut] at hb
      simp only [List.length_cons]
      constructor <;> omega
    · rw [hrc] at hb
      simp only [ConfigOut.retriesOut, ConfigOut.callsOut] at hb
      have := ih b2 r2 lastE c2
      simp only [List.length_cons]
      constructor <;> omega
    · rw [hrc] at hb
      simp only [ConfigOut.retriesOut, ConfigOut.callsOut] at hb
      have := ih b2 r2 (some m2) c2
      simp only [List.length_cons]
      constructor <;> omega

theorem runModels_answer_valid (up : String) (cfgs : List ModelConfig) :
    ∀ (best : Option String) (r : Nat) (lastE : Option String)
      (calls : List HttpResponse) (t m : String),
      (runModels up cfgs best r lastE calls).answer = some (t, m) →
      isValidLength t = true ∧ m ∈ cfgs.map ModelConfig.name := by
  induction cfgs with
  | nil =>
    intro best r lastE calls t m h
    simp [runModels] at h
  | cons cfg rest ih =>
    intro best r lastE calls t m h
    simp only [runModels] at h
    rcases hrc : runConfig up best r calls
      with ⟨tt, b2, r2, c2⟩ | ⟨b2, r2, c2⟩ | ⟨m2, b2, r2, c2⟩
    · rw [hrc] at h
      simp only [Option.some.injEq, Prod.mk.injEq] at h
      obtain ⟨h1, h2⟩ := h
      have hv := runConfig_accepted_valid up best r calls tt b2 r2 c2 hrc
      subst h1
      subst h2
      exact ⟨hv, by simp⟩
    · rw [hrc] at h
      obtain ⟨hv, hm⟩ := ih b2 r2 lastE c2 t m h
      exact ⟨hv, by simp only [List.map_cons]; exact List.mem_cons_of_mem _ hm⟩
    · rw [hrc] at h
      obtain ⟨hv, hm⟩ := ih b2 r2 (some m2) c2 t m h
      exact ⟨hv, by simp only [List.map_cons]; exact List.mem_cons_of_mem _ hm⟩

/-! Fallback tracker lemma -/

theorem updateBest_spec (best : Option String) (c : String) :
    ∃ rr, updateBest best c = some rr
      ∧ (best = some rr ∨ rr = c)
      ∧ c.length ≤ rr.length
      ∧ (∀ b, best = some b → b.length ≤ rr.length) := by
  cases best with
  | none => exact ⟨c, rfl, Or.inr rfl, le_refl _, by intro b hb; cases hb⟩
  | some b =>
    by_cases h : b.length < c.length
    · refine ⟨c, by simp [updateBest, h], Or.inr rfl, le_refl _, ?_⟩
      intro b2 hb2
      injection hb2 with e
      subst e
      omega
    · refine ⟨b, by simp [updateBest, h], Or.inl rfl, by omega, ?_⟩
      intro b2 hb2
      injection hb2 with e
      subst e
      omega

/-! POST path helpers -/

theorem POST_success_answer (key : String) (now : Int) (rl : RateState)
    (bodyKeyword : Option String) (calls : List HttpResponse)
    (hkey : jsTrim key ≠ "") (hadm : (isRateLimited now rl).1 = false)
    (hkw1 : jsTrim (bodyKeyword.getD "") ≠ "")
    (hkw2 : (jsTrim (bodyKeyword.getD "")).length ≤ 30)
    (t m : String)
    (hans : (runModels (buildUserPrompt (jsTrim (bodyKeyword.getD "")))
        MODEL_CONFIGS none 0 none calls).answer = some (t, m)) :
    POST key now rl bodyKeyword calls
      = ⟨.success t (jsTrim (bodyKeyword.getD ""))
           (runModels (buildUserPrompt (jsTrim (bodyKeyword.getD "")))
             MODEL_CONFIGS none 0 none calls).retries m,
         (isRateLimited now rl).2,
         (runModels (buildUserPrompt (jsTrim (bodyKeyword.getD "")))
           MODEL_CONFIGS none 0 none calls).calls⟩ := by
  simp only [POST]
  rw [if_neg hkey, hadm]
  simp only [Bool.false_eq_true, if_false]
  rw [if_neg hkw1, if_neg (by omega : ¬ 30 < (jsTrim (bodyKeyword.getD "")).length)]
  rw [hans]

theorem POST_fallback_long (key : String) (now : Int) (rl : RateState)
    (bodyKeyword : Option String) (calls : List HttpResponse)
    (hkey : jsTrim key ≠ "") (hadm : (isRateLimited now rl).1 = false)
    (hkw1 : jsTrim (bodyKeyword.getD "") ≠ "")
    (hkw2 : (jsTrim (bodyKeyword.getD "")).length ≤ 30)
    (b : String)
    (hans : (runModels (buildUserPrompt (jsTrim (bodyKeyword.getD "")))
        MODEL_CONFIGS none 0 none calls).answer = none)
    (hbest : (runModels (buildUserPrompt (jsTrim (bodyKeyword.getD "")))
        MODEL_CONFIGS none 0 none calls).best = some b)
    (hlb : 10 ≤ b.length) :
    POST key now rl bodyKeyword calls
      = ⟨.success b (jsTrim (bodyKeyword.getD ""))
           (runModels (buildUserPrompt (jsTrim (bodyKeyword.getD "")))
             MODEL_CONFIGS none 0 none calls).retries "fallback",
         (isRateLimited now rl).2,
         (runModels (buildUserPrompt (jsTrim (bodyKeyword.getD "")))
           MODEL_CONFIGS none 0 none calls).calls⟩ := by
  simp only [POST]
  rw [if_neg hkey, hadm]
  simp only [Bool.false_eq_true, if_false]
  rw [if_neg hkw1, if_neg (by omega : ¬ 30 < (jsTrim (bodyKeyword.getD "")).length)]
  rw [hans, hbest]
  dsimp only
  rw [if_pos hlb]

theorem POST_fallback_short (key : String) (now : Int) (rl : RateState)
    (bodyKeyword : Option String) (calls : List HttpResponse)
    (hkey : jsTrim key ≠ "") (hadm : (isRateLimited now rl).1 = false)
    (hkw1 : jsTrim (bodyKeyword.getD "") ≠ "")
    (hkw2 : (jsTrim (bodyKeyword.getD "")).length ≤ 30)
    (b : String)
    (hans : (runModels (buildUserPrompt (jsTrim (bodyKeyword.getD "")))
        MODEL_CONFIGS none 0 none calls).answer = none)
    (hbest : (runModels (buildUserPrompt (jsTrim (bodyKeyword.getD "")))
        MODEL_CONFIGS none 0 none calls).best = some b)
    (hlb : b.length < 10) :
    POST key now rl bodyKeyword calls
      = ⟨.error 500 "generation_failed", (isRateLimited now rl).2,
         (runModels (buildUserPrompt (jsTrim (bodyKeyword.getD "")))
           MODEL_CONFIGS none 0 none calls).calls⟩ := by
  simp only [POST]
  rw [if_neg hkey, hadm]
  simp only [Bool.false_eq_true, if_false]
  rw [if_neg hkw1, if_neg (by omega : ¬ 30 < (jsTrim (bodyKeyword.getD "")).length)]
  rw [hans, hbest]
  dsimp only
  rw [if_neg (by omega : ¬ 10 ≤ b.length)]

theorem POST_best_none (key : String) (now : Int) (rl : RateState)
    (bodyKeyword : Option String) (calls : List HttpResponse)
    (hkey : jsTrim key ≠ "") (hadm : (isRateLimited now rl).1 = false)
    (hkw1 : jsTrim (bodyKeyword.getD "") ≠ "")
    (hkw2 : (jsTrim (bodyKeyword.getD "")).length ≤ 30)
    (hans : (runModels (buildUserPrompt (jsTrim (bodyKeyword.getD "")))
        MODEL_CONFIGS none 0 none calls).answer = none)
    (hbest : (runModels (buildUserPrompt (jsTrim (bodyKeyword.getD "")))
        MODEL_CONFIGS none 0 none calls).best = none) :
    POST key now rl bodyKeyword calls
      = ⟨.error 500 "generation_failed", (isRateLimited now rl).2,
         (runModels (buildUserPrompt (jsTrim (bodyKeyword.getD "")))
           MODEL_CONFIGS none 0 none calls).calls⟩ := by
  simp only [POST]
  rw [if_neg hkey, hadm]
  simp only [Bool.false_eq_true, if_false]
  rw [if_neg hkw1, if_neg (by omega : ¬ 30 < (jsTrim (bodyKeyword.getD "")).length)]
  rw [hans, hbest]

/-- C1: every successful POST response either is tagged
`model = "fallback"` with a trivia text of length at least 10, or carries
an in-range trivia text (70 ≤ length ≤ 100) whose model field is the name
of one of the configured models; in particular a candidate is accepted as
the final non-fallback answer only when its length lies in [70, 100]. -/
theorem success_in_range_or_fallback (key : String) (now : Int)
    (rl : RateState) (bodyKeyword : Option String) (calls : List HttpResponse)
    (t kw : String) (r : Nat) (m : String) (st : RateState)
    (cl : List HttpResponse)
    (h : POST key now rl bodyKeyword calls = ⟨.success t kw r m, st, cl⟩) :
    (m = "fallback" ∧ 10 ≤ t.length)
    ∨ (70 ≤ t.length ∧ t.length ≤ 100 ∧ m ∈ MODEL_CONFIGS.map ModelConfig.name) := by
  simp only [POST] at h
  by_cases hkey : jsTrim key = ""
  · rw [if_pos hkey] at h
    exact absurd h (by simp)
  rw [if_neg hkey] at h
  cases hadm : (isRateLimited now rl).1 with
  | true =>
    rw [hadm] at h
    simp at h
  | false =>
    rw [hadm] at h
    simp only [Bool.false_eq_true, if_false] at h
    by_cases hkw : jsTrim (bodyKeyword.getD "") = ""
    · rw [if_pos hkw] at h
      exact absurd h (by simp)
    rw [if_neg hkw] at h
    by_cases hlen : 30 < (jsTrim (bodyKeyword.getD "")).length
    · rw [if_pos hlen] at h
      exact absurd h (by simp)
    rw [if_neg hlen] at h
    cases hans : (runModels (buildUserPrompt (jsTrim (bodyKeyword.getD "")))
        MODEL_CONFIGS none 0 none calls).answer with
    | some a =>
      rw [hans] at h
      obtain ⟨t2, m2⟩ := a
      simp only [PostResult.mk.injEq, ApiResponse.success.injEq] at h
      obtain ⟨⟨h1, _, _, h4⟩, _, _⟩ := h
      have hv := runModels_answer_valid (buildUserPrompt (jsTrim (bodyKeyword.getD "")))
        MODEL_CONFIGS none 0 none calls t2 m2 hans
      right
      have hvl : isValidLength t2 = true := hv.1
      simp only [isValidLength, Bool.and_eq_true, decide_eq_true_eq] at hvl
      subst h1
      subst h4
      exact ⟨hvl.1, hvl.2, hv.2⟩
    | none =>
      rw [hans] at h
      cases hbest : (runModels (buildUserPrompt (jsTrim (bodyKeyword.getD "")))
          MODEL_CONFIGS none 0 none calls).best with
      | none =>
        rw [hbest] at h
        exact absurd h (by simp)
      | some b =>
        rw [hbest] at h
        dsimp only at h
        by_cases hlb : 10 ≤ b.length
        · rw [if_pos hlb] at h
          simp only [PostResult.mk.injEq, ApiResponse.success.injEq] at h
          obtain ⟨⟨h1, _, _, h4⟩, _, _⟩ := h
          left
          subst h1
          exact ⟨h4.symm, hlb⟩
        · rw [if_neg hlb] at h
          exact absurd h (by simp)

/-- Witness for C1: a single provider call returning an 85-character text
with finish reason STOP, accepted by the first model configuration. -/
theorem success_in_range_or_fallback_witness :
    POST "k" 0 [] (some "a") [.ok (mkData demo85 "STOP")]
      = ⟨.success demo85 "a" 0 "gemini-2.0-flash", [0], []⟩
    ∧ ((("gemini-2.0-flash" : String) = "fallback" ∧ 10 ≤ demo85.length)
      ∨ (70 ≤ demo85.length ∧ demo85.length ≤ 100
        ∧ "gemini-2.0-flash" ∈ MODEL_CONFIGS.map ModelConfig.name)) :=
  ⟨by decide,
    success_in_range_or_fallback "k" 0 [] (some "a") [.ok (mkData demo85 "STOP")]
      demo85 "a" 0 "gemini-2.0-flash" [0] [] (by decide)⟩

/-- Admission for a fresh client key always succeeds and records `now`. -/
theorem isRateLimited_nil (now : Int) : isRateLimited now [] = (false, [now]) := by
  simp [isRateLimited, RATE_LIMIT_PER_MINUTE]

/-- C8 (amended): the derived finish signal is read from the first
candidate's completion metadata; a missing or empty value maps to
UNKNOWN, and every other provider-supplied string is returned verbatim
(the orchestrator downstream only distinguishes NOT_FOUND and
MAX_TOKENS). -/
theorem finish_signal_characterization (data : GeminiData) :
    getFinishReason data
      = (if ((data.candidates.head?.bind GCandidate.finishReason).getD "") = ""
         then "UNKNOWN"
         else (data.candidates.head?.bind GCandidate.finishReason).getD "") := by
  unfold getFinishReason
  cases hc : data.candidates.head? with
  | none => simp
  | some c =>
    cases hf : c.finishReason with
    | none => simp [hf]
    | some s =>
      by_cases hs : s = ""
      · simp [hf, hs]
      · simp [hf, hs]

/-- C8 counterexample: the provider-supplied finish reason "SAFETY" is
returned verbatim by `getFinishReason`, so the derived signal is not
confined to the enumerated set (COMPLETE is "STOP", TRUNCATED is
"MAX_TOKENS", plus "NOT_FOUND" and "UNKNOWN"): unrecognized values are
not mapped to UNKNOWN. -/
theorem finish_signal_passthrough :
    getFinishReason ⟨[⟨none, some "SAFETY"⟩]⟩ = "SAFETY"
    ∧ "SAFETY" ∉ (["STOP", "MAX_TOKENS", "NOT_FOUND", "UNKNOWN"] : List String) :=
  ⟨rfl, by decide⟩

/-- C3: an HTTP 404 from the provider makes `callGemini` return the
NOT_FOUND sentinel with null text instead of raising; the orchestrator
skips such a configuration without recording a failure (the last-error
slot and correction count are untouched); and when every configured model
returns NOT_FOUND, the request ends in the `generation_failed` error with
the cumulative correction count still 0 and no failure recorded. -/
theorem not_found_skips_and_fails (key : String) (now : Int)
    (body₁ body₂ body₃ : String) (hkey : jsTrim key ≠ "") :
    (∀ body, callGemini (.err 404 body) = .ok ⟨none, "NOT_FOUND"⟩)
    ∧ (∀ (up : String) (best : Option String) (retries : Nat)
        (rest : List HttpResponse),
        runConfig up best retries (.err 404 body₁ :: rest)
          = .notFoundSkip best retries rest)
    ∧ (∀ up : String,
        runModels up MODEL_CONFIGS none 0 none
          [.err 404 body₁, .err 404 body₂, .err 404 body₃]
          = ⟨none, none, 0, none, []⟩)
    ∧ (POST key now [] (some "a")
        [.err 404 body₁, .err 404 body₂, .err 404 body₃]).resp
      = .error 500 "generation_failed" := by
  have h404 : ∀ body, callGemini (.err 404 body) = .ok ⟨none, "NOT_FOUND"⟩ := by
    intro body
    simp [callGemini]
  have hskip : ∀ (up : String) (best : Option String) (retries : Nat)
      (rest : List HttpResponse) (body : String),
      runConfig up best retries (.err 404 body :: rest)
        = .notFoundSkip best retries rest := by
    intro up best retries rest body
    exact runConfig_notFound up best retries _ rest (h404 body)
  have hrm : ∀ up : String,
      runModels up MODEL_CONFIGS none 0 none
        [.err 404 body₁, .err 404 body₂, .err 404 body₃]
        = ⟨none, none, 0, none, []⟩ := by
    intro up
    simp only [ MODEL_CONFIGS, runModels, hskip]
  have hpost := POST_best_none key now [] (some "a")
    [.err 404 body₁, .err 404 body₂, .err 404 body₃] hkey
    (by rw [isRateLimited_nil]) (by decide) (by decide)
    (by rw [hrm]) (by rw [hrm])
  refine ⟨h404, fun up best retries rest => hskip up best retries rest body₁, hrm, ?_⟩
  rw [hpost]

/-- Witness for C3 at concrete inputs. -/
theorem not_found_skips_and_fails_witness :
    jsTrim "k" ≠ ""
    ∧ ((∀ body, callGemini (.err 404 body) = .ok ⟨none, "NOT_FOUND"⟩)
      ∧ (∀ (up : String) (best : Option String) (retries : Nat)
          (rest : List HttpResponse),
          runConfig up best retries (.err 404 "b1" :: rest)
            = .notFoundSkip best retries rest)
      ∧ (∀ up : String,
          runModels up MODEL_CONFIGS none 0 none
            [.err 404 "b1", .err 404 "b2", .err 404 "b3"]
            = ⟨none, none, 0, none, []⟩)
      ∧ (POST "k" 0 [] (some "a")
          [.err 404 "b1", .err 404 "b2", .err 404 "b3"]).resp
        = .error 500 "generation_failed") :=
  ⟨by decide, not_found_skips_and_fails "k" 0 "b1" "b2" "b3" (by decide)⟩

/-- C2: a configuration whose first call returns text with finish signal
MAX_TOKENS records the partial text through the fallback tracker (which
keeps a new text only when strictly longer), makes no correction call
(correction count and remaining oracle show exactly one call consumed),
and escalates as a failure; when the first call of every configured model
is truncated, the run counts zero corrections, holds a longest of the
three texts as fallback, and the request ends as a `model = "fallback"`
success when that text has length at least 10 and as the
`generation_failed` error otherwise — never as an in-range acceptance. -/
theorem truncated_first_calls (key : String) (now : Int)
    (c₁ c₂ c₃ : HttpResponse) (t₁ t₂ t₃ : String) (hkey : jsTrim key ≠ "")
    (h₁ : callGemini c₁ = .ok ⟨some t₁, "MAX_TOKENS"⟩)
    (h₂ : callGemini c₂ = .ok ⟨some t₂, "MAX_TOKENS"⟩)
    (h₃ : callGemini c₃ = .ok ⟨some t₃, "MAX_TOKENS"⟩) :
    (∀ (up : String) (best : Option String) (retries : Nat)
        (rest : List HttpResponse),
        runConfig up best retries (c₁ :: rest)
          = .failed "レスポンスが途中で切れました (MAX_TOKENS)。" (updateBest best t₁) retries rest)
    ∧ (∃ b, (∀ up : String,
          runModels up MODEL_CONFIGS none 0 none [c₁, c₂, c₃]
            = ⟨none, some b, 0, some "レスポンスが途中で切れました (MAX_TOKENS)。", []⟩)
        ∧ (b = t₁ ∨ b = t₂ ∨ b = t₃)
        ∧ t₁.length ≤ b.length ∧ t₂.length ≤ b.length ∧ t₃.length ≤ b.length
        ∧ (10 ≤ b.length →
            POST key now [] (some "a") [c₁, c₂, c₃]
              = ⟨.success b "a" 0 "fallback", [now], []⟩)
        ∧ (b.length < 10 →
            POST key now [] (some "a") [c₁, c₂, c₃]
              = ⟨.error 500 "generation_failed", [now], []⟩)) := by
  have hrc : ∀ (up : String) (best : Option String) (retries : Nat)
      (rest : List HttpResponse) (c : HttpResponse) (t : String),
      callGemini c = .ok ⟨some t, "MAX_TOKENS"⟩ →
      runConfig up best retries (c :: rest)
        = .failed "レスポンスが途中で切れました (MAX_TOKENS)。" (updateBest best t) retries rest :=
    fun up best retries rest c t hc => runConfig_truncated up best retries c rest t hc
  obtain ⟨b₂, e₂, or₂, le₂c, le₂b⟩ := updateBest_spec (some t₁) t₂
  obtain ⟨b₃, e₃, or₃, le₃c, le₃b⟩ := updateBest_spec (some b₂) t₃
  have hchain : updateBest (updateBest (updateBest none t₁) t₂) t₃ = some b₃ := by
    rw [show updateBest none t₁ = some t₁ from rfl, e₂, e₃]
  have hrm : ∀ up : String,
      runModels up MODEL_CONFIGS none 0 none [c₁, c₂, c₃]
        = ⟨none, some b₃, 0, some "レスポンスが途中で切れました (MAX_TOKENS)。", []⟩ := by
    intro up
    have r1 := hrc up none 0 [c₂, c₃] c₁ t₁ h₁
    have r2 := hrc up (updateBest none t₁) 0 [c₃] c₂ t₂ h₂
    have r3 := hrc up (updateBest (updateBest none t₁) t₂) 0 [] c₃ t₃ h₃
    simp only [ MODEL_CONFIGS, runModels, r1, r2, r3]
    rw [hchain]
  have hb3t1 : t₁.length ≤ b₃.length :=
    le_trans (le₂b t₁ rfl) (le₃b b₂ rfl)
  have hb3t2 : t₂.length ≤ b₃.length := le_trans le₂c (le₃b b₂ rfl)
  have hmem : b₃ = t₁ ∨ b₃ = t₂ ∨ b₃ = t₃ := by
    rcases or₃ with h | h
    · injection h with h
      subst h
      rcases or₂ with h | h
      · injection h with h
        subst h
        exact Or.inl rfl
      · exact Or.inr (Or.inl h)
    · exact Or.inr (Or.inr h)
  refine ⟨fun up best retries rest => hrc up best retries rest c₁ t₁ h₁,
    b₃, hrm, hmem, hb3t1, hb3t2, le₃c, ?_, ?_⟩
  · intro hlb
    rw [POST_fallback_long key now [] (some "a") [c₁, c₂, c₃] hkey
      (by rw [isRateLimited_nil]) (by decide) (by decide) b₃
      (by rw [hrm]) (by rw [hrm]) hlb]
    rw [hrm, isRateLimited_nil]
    rfl
  · intro hlb
    rw [POST_fallback_short key now [] (some "a") [c₁, c₂, c₃] hkey
      (by rw [isRateLimited_nil]) (by decide) (by decide) b₃
      (by rw [hrm]) (by rw [hrm]) hlb]
    rw [hrm, isRateLimited_nil]

/-- Witness for C2: three truncated texts of lengths 5, 20, 5; the
20-character one is served as the fallback answer. -/
theorem truncated_first_calls_witness :
    jsTrim "k" ≠ ""
    ∧ callGemini (.ok (mkData demo5 "MAX_TOKENS")) = .ok ⟨some demo5, "MAX_TOKENS"⟩
    ∧ callGemini (.ok (mkData demo20 "MAX_TOKENS")) = .ok ⟨some demo20, "MAX_TOKENS"⟩
    ∧ ((∀ (up : String) (best : Option String) (retries : Nat)
        (rest : List HttpResponse),
        runConfig up best retries (HttpResponse.ok (mkData demo5 "MAX_TOKENS") :: rest)
          = .failed "レスポンスが途中で切れました (MAX_TOKENS)。" (updateBest best demo5) retries rest)
    ∧ (∃ b, (∀ up : String,
          runModels up MODEL_CONFIGS none 0 none
            [.ok (mkData demo5 "MAX_TOKENS"), .ok (mkData demo20 "MAX_TOKENS"),
              .ok (mkData demo5 "MAX_TOKENS")]
            = ⟨none, some b, 0, some "レスポンスが途中で切れました (MAX_TOKENS)。", []⟩)
        ∧ (b = demo5 ∨ b = demo20 ∨ b = demo5)
        ∧ demo5.length ≤ b.length ∧ demo20.length ≤ b.length ∧ demo5.length ≤ b.length
        ∧ (10 ≤ b.length →
            POST "k" 0 [] (some "a")
              [.ok (mkData demo5 "MAX_TOKENS"), .ok (mkData demo20 "MAX_TOKENS"),
                .ok (mkData demo5 "MAX_TOKENS")]
              = ⟨.success b "a" 0 "fallback", [0], []⟩)
        ∧ (b.length < 10 →
            POST "k" 0 [] (some "a")
              [.ok (mkData demo5 "MAX_TOKENS"), .ok (mkData demo20 "MAX_TOKENS"),
                .ok (mkData demo5 "MAX_TOKENS")]
              = ⟨.error 500 "generation_failed", [0], []⟩))) :=
  ⟨by decide, rfl, rfl,
    truncated_first_calls "k" 0 (.ok (mkData demo5 "MAX_TOKENS"))
      (.ok (mkData demo20 "MAX_TOKENS")) (.ok (mkData demo5 "MAX_TOKENS"))
      demo5 demo20 demo5 (by decide) rfl rfl rfl⟩

/-- C4: per configuration the correction count grows by at most 3 (and
never shrinks) and at most 4 provider calls are consumed; over a whole
run the cumulative count grows by at most 3 times the number of
configured models; the loop does not run at all when the candidate is
already in range; when it does run it appends the candidate as a model
turn and the correction prompt as a requester turn before the retry; and
a retry yielding no text or itself truncated stops the loop keeping the
current candidate, while an in-range check failure continues with the
retry's text after updating the fallback tracker. -/
theorem correction_loop_contract
    (cand : String) (msgs : List Turn) (best : Option String) (r : Nat)
    (c : HttpResponse) (rest : List HttpResponse) (t fr : String) :
    ((∀ (up : String) (b : Option String) (r0 : Nat) (calls : List HttpResponse),
        r0 ≤ (runConfig up b r0 calls).retriesOut
        ∧ (runConfig up b r0 calls).retriesOut ≤ r0 + 3
        ∧ calls.length ≤ (runConfig up b r0 calls).callsOut.length + 4)
    ∧ (∀ (up : String) (cfgs : List ModelConfig) (b : Option String) (r0 : Nat)
        (lastE : Option String) (calls : List HttpResponse),
        (runModels up cfgs b r0 lastE calls).retries ≤ r0 + 3 * cfgs.length))
    ∧ (isValidLength cand = true →
        correctionLoop 3 cand msgs best r (c :: rest)
          = .done cand msgs best r (c :: rest))
    ∧ (isValidLength cand = false →
        (callGemini c = .ok ⟨none, fr⟩ →
          correctionLoop 3 cand msgs best r (c :: rest)
            = .done cand
                (msgs ++ [⟨"model", cand⟩, ⟨"user", getRetryPrompt cand.length⟩])
                best (r + 1) rest)
        ∧ (callGemini c = .ok ⟨some t, "MAX_TOKENS"⟩ →
          correctionLoop 3 cand msgs best r (c :: rest)
            = .done cand
                (msgs ++ [⟨"model", cand⟩, ⟨"user", getRetryPrompt cand.length⟩])
                best (r + 1) rest)
        ∧ (callGemini c = .ok ⟨some t, fr⟩ → fr ≠ "MAX_TOKENS" →
          correctionLoop 3 cand msgs best r (c :: rest)
            = correctionLoop 2 t
                (msgs ++ [⟨"model", cand⟩, ⟨"user", getRetryPrompt cand.length⟩])
                (updateBest best t) (r + 1) rest)) := by
  refine ⟨⟨fun up b r0 calls => runConfig_bounds up b r0 calls,
    fun up cfgs b r0 lastE calls => (runModels_bounds up cfgs b r0 lastE calls).2⟩,
    ?_, ?_⟩
  · intro hv
    exact correctionLoop_valid 2 cand msgs best r (c :: rest) hv
  · intro hv
    exact ⟨fun hc => correctionLoop_stop_noText 2 cand msgs best r c rest fr hv hc,
      fun hc => correctionLoop_stop_truncated 2 cand msgs best r c rest t hv hc,
      fun hc hfr => correctionLoop_continue 2 cand msgs best r c rest t fr hv hc hfr⟩

/-- Witness for C4: a 60-character candidate, out of range, with a retry
returning an 85-character text. -/
theorem correction_loop_contract_witness :
    isValidLength demo60 = false
    ∧ callGemini (.ok (mkData demo85 "STOP")) = .ok ⟨some demo85, "STOP"⟩
    ∧ (((∀ (up : String) (b : Option String) (r0 : Nat) (calls : List HttpResponse),
        r0 ≤ (runConfig up b r0 calls).retriesOut
        ∧ (runConfig up b r0 calls).retriesOut ≤ r0 + 3
        ∧ calls.length ≤ (runConfig up b r0 calls).callsOut.length + 4)
    ∧ (∀ (up : String) (cfgs : List ModelConfig) (b : Option String) (r0 : Nat)
        (lastE : Option String) (calls : List HttpResponse),
        (runModels up cfgs b r0 lastE calls).retries ≤ r0 + 3 * cfgs.length))
    ∧ (isValidLength demo60 = true →
        correctionLoop 3 demo60 [] none 0 (HttpResponse.ok (mkData demo85 "STOP") :: [])
          = .done demo60 [] none 0 (HttpResponse.ok (mkData demo85 "STOP") :: []))
    ∧ (isValidLength demo60 = false →
        (callGemini (.ok (mkData demo85 "STOP")) = .ok ⟨none, "STOP"⟩ →
          correctionLoop 3 demo60 [] none 0 (HttpResponse.ok (mkData demo85 "STOP") :: [])
            = .done demo60
                ([] ++ [⟨"model", demo60⟩, ⟨"user", getRetryPrompt demo60.length⟩])
                none (0 + 1) [])
        ∧ (callGemini (.ok (mkData demo85 "STOP")) = .ok ⟨some demo85, "MAX_TOKENS"⟩ →
          correctionLoop 3 demo60 [] none 0 (HttpResponse.ok (mkData demo85 "STOP") :: [])
            = .done demo60
                ([] ++ [⟨"model", demo60⟩, ⟨"user", getRetryPrompt demo60.length⟩])
                none (0 + 1) [])
        ∧ (callGemini (.ok (mkData demo85 "STOP")) = .ok ⟨some demo85, "STOP"⟩ →
            ("STOP" : String) ≠ "MAX_TOKENS" →
          correctionLoop 3 demo60 [] none 0 (HttpResponse.ok (mkData demo85 "STOP") :: [])
            = correctionLoop 2 demo85
                ([] ++ [⟨"model", demo60⟩, ⟨"user", getRetryPrompt demo60.length⟩])
                (updateBest none demo85) (0 + 1) []))) :=
  ⟨by decide, rfl,
    correction_loop_contract demo60 [] none 0 (.ok (mkData demo85 "STOP")) [] demo85 "STOP"⟩

/-- C7: when the first configuration's initial call yields a
non-truncated 60-character candidate and the single correction call
yields a non-truncated 85-character candidate, the request succeeds with
the 85-character text as the trivia, reports the first configuration
(`gemini-2.0-flash`) as the model used, and reports exactly 1 correction
attempt. -/
theorem one_correction_accepts (key : String) (now : Int)
    (c₁ c₂ : HttpResponse) (rest : List HttpResponse) (t₁ t₂ fr₁ fr₂ : String)
    (hkey : jsTrim key ≠ "")
    (h₁ : callGemini c₁ = .ok ⟨some t₁, fr₁⟩) (hfr₁ : fr₁ ≠ "MAX_TOKENS")
    (hl₁ : t₁.length = 60)
    (h₂ : callGemini c₂ = .ok ⟨some t₂, fr₂⟩) (hfr₂ : fr₂ ≠ "MAX_TOKENS")
    (hl₂ : t₂.length = 85) :
    POST key now [] (some "a") (c₁ :: c₂ :: rest)
      = ⟨.success t₂ "a" 1 "gemini-2.0-flash", [now], rest⟩ := by
  have hv₁ : isValidLength t₁ = false := by simp [isValidLength, hl₁]
  have hv₂ : isValidLength t₂ = true := by simp [isValidLength, hl₂]
  have hub : updateBest (some t₁) t₂ = some t₂ := by simp [updateBest, hl₁, hl₂]
  have hrc : ∀ up : String,
      runConfig up none 0 (c₁ :: c₂ :: rest) = .accepted t₂ (some t₂) 1 rest := by
    intro up
    rw [runConfig_ok up none 0 c₁ (c₂ :: rest) t₁ fr₁ h₁ hfr₁]
    rw [show updateBest none t₁ = some t₁ from rfl]
    rw [show (3 : Nat) = 2 + 1 from rfl,
      correctionLoop_continue 2 t₁ _ (some t₁) 0 c₂ rest t₂ fr₂ hv₁ h₂ hfr₂]
    rw [hub]
    rw [show (2 : Nat) = 1 + 1 from rfl,
      correctionLoop_valid 1 t₂ _ (some t₂) 1 rest hv₂]
    dsimp only
    rw [if_pos hv₂]
  have hrm : ∀ up : String,
      runModels up MODEL_CONFIGS none 0 none (c₁ :: c₂ :: rest)
        = ⟨some (t₂, "gemini-2.0-flash"), some t₂, 1, none, rest⟩ := by
    intro up
    simp only [ MODEL_CONFIGS, runModels, hrc]
  rw [POST_success_answer key now [] (some "a") (c₁ :: c₂ :: rest) hkey
    (by rw [isRateLimited_nil]) (by decide) (by decide) t₂ "gemini-2.0-flash"
    (by rw [hrm])]
  rw [hrm, isRateLimited_nil]
  rfl

/-- Witness for C7 at concrete inputs. -/
theorem one_correction_accepts_witness :
    jsTrim "k" ≠ ""
    ∧ callGemini (.ok (mkData demo60 "STOP")) = .ok ⟨some demo60, "STOP"⟩
    ∧ ("STOP" : String) ≠ "MAX_TOKENS"
    ∧ demo60.length = 60
    ∧ callGemini (.ok (mkData demo85 "STOP")) = .ok ⟨some demo85, "STOP"⟩
    ∧ demo85.length = 85
    ∧ POST "k" 0 [] (some "a")
        (HttpResponse.ok (mkData demo60 "STOP") :: HttpResponse.ok (mkData demo85 "STOP") :: [])
      = ⟨.success demo85 "a" 1 "gemini-2.0-flash", [0], []⟩ :=
  ⟨by decide, rfl, by decide, by decide, rfl, by decide,
    one_correction_accepts "k" 0 (.ok (mkData demo60 "STOP"))
      (.ok (mkData demo85 "STOP")) [] demo60 demo85 "STOP" "STOP"
      (by decide) rfl (by decide) (by decide) rfl (by decide) (by decide)⟩

/-- C10: the correction count reported on success accumulates across
every model configuration attempted and is never reset between
configurations (`runModels` never decreases it); in a run where the
first configuration spends all 3 corrections on 60-character candidates
and fails, while the second configuration's first call is an in-range
85-character candidate needing no correction, the success response still
reports 3 correction attempts — the count of the escalated-past
configuration, not that of the accepted one. -/
theorem retries_accumulate (key : String) (now : Int)
    (c₁ c₂ c₃ c₄ c₅ : HttpResponse) (t₁ t₂ t₃ t₄ t₅ : String)
    (f₁ f₂ f₃ f₄ f₅ : String) (hkey : jsTrim key ≠ "")
    (h₁ : callGemini c₁ = .ok ⟨some t₁, f₁⟩) (hf₁ : f₁ ≠ "MAX_TOKENS")
    (hl₁ : t₁.length = 60)
    (h₂ : callGemini c₂ = .ok ⟨some t₂, f₂⟩) (hf₂ : f₂ ≠ "MAX_TOKENS")
    (hl₂ : t₂.length = 60)
    (h₃ : callGemini c₃ = .ok ⟨some t₃, f₃⟩) (hf₃ : f₃ ≠ "MAX_TOKENS")
    (hl₃ : t₃.length = 60)
    (h₄ : callGemini c₄ = .ok ⟨some t₄, f₄⟩) (hf₄ : f₄ ≠ "MAX_TOKENS")
    (hl₄ : t₄.length = 60)
    (h₅ : callGemini c₅ = .ok ⟨some t₅, f₅⟩) (hf₅ : f₅ ≠ "MAX_TOKENS")
    (hl₅ : t₅.length = 85) :
    (∀ (up : String) (cfgs : List ModelConfig) (b : Option String) (r0 : Nat)
        (lastE : Option String) (calls : List HttpResponse),
        r0 ≤ (runModels up cfgs b r0 lastE calls).retries)
    ∧ POST key now [] (some "a") [c₁, c₂, c₃, c₄, c₅]
        = ⟨.success t₅ "a" 3 "gemini-2.5-flash", [now], []⟩ := by
  have hv60 : ∀ s : String, s.length = 60 → isValidLength s = false := by
    intro s hs
    simp [isValidLength, hs]
  have hv₅ : isValidLength t₅ = true := by simp [isValidLength, hl₅]
  have hub : ∀ s : String, s.length = 60 → updateBest (some t₁) s = some t₁ := by
    intro s hs
    simp [updateBest, hl₁, hs]
  have hub₅ : updateBest (some t₁) t₅ = some t₅ := by
    simp [updateBest, hl₁, hl₅]
  have hrc1 : ∀ up : String,
      runConfig up none 0 [c₁, c₂, c₃, c₄, c₅]
        = .failed ("文字数が範囲外です（" ++ toString t₄.length ++ "文字）。")
            (some t₁) 3 [c₅] := by
    intro up
    rw [runConfig_ok up none 0 c₁ [c₂, c₃, c₄, c₅] t₁ f₁ h₁ hf₁]
    rw [show updateBest none t₁ = some t₁ from rfl]
    rw [show (3 : Nat) = 2 + 1 from rfl,
      correctionLoop_continue 2 t₁ _ (some t₁) 0 c₂ [c₃, c₄, c₅] t₂ f₂
        (hv60 t₁ hl₁) h₂ hf₂]
    rw [hub t₂ hl₂]
    rw [show (2 : Nat) = 1 + 1 from rfl,
      correctionLoop_continue 1 t₂ _ (some t₁) 1 c₃ [c₄, c₅] t₃ f₃
        (hv60 t₂ hl₂) h₃ hf₃]
    rw [hub t₃ hl₃]
    rw [show (1 : Nat) = 0 + 1 from rfl,
      correctionLoop_continue 0 t₃ _ (some t₁) 2 c₄ [c₅] t₄ f₄
        (hv60 t₃ hl₃) h₄ hf₄]
    rw [hub t₄ hl₄]
    rw [show ∀ (msgs : List Turn) (best : Option String),
      correctionLoop 0 t₄ msgs best 3 [c₅] = .done t₄ msgs best 3 [c₅]
      from fun msgs best => rfl]
    dsimp only
    rw [if_neg (by simp [hv60 t₄ hl₄])]
  have hrc2 : ∀ up : String,
      runConfig up (some t₁) 3 [c₅] = .accepted t₅ (some t₅) 3 [] := by
    intro up
    rw [runConfig_ok up (some t₁) 3 c₅ [] t₅ f₅ h₅ hf₅]
    rw [hub₅]
    rw [show (3 : Nat) = 2 + 1 from rfl,
      correctionLoop_valid 2 t₅ _ (some t₅) 3 [] hv₅]
    dsimp only
    rw [if_pos hv₅]
  have hrm : ∀ up : String,
      runModels up MODEL_CONFIGS none 0 none [c₁, c₂, c₃, c₄, c₅]
        = ⟨some (t₅, "gemini-2.5-flash"), some t₅, 3,
           some ("文字数が範囲外です（" ++ toString t₄.length ++ "文字）。"), []⟩ := by
    intro up
    simp only [ MODEL_CONFIGS, runModels, hrc1, hrc2]
  refine ⟨fun up cfgs b r0 lastE calls => (runModels_bounds up cfgs b r0 lastE calls).1, ?_⟩
  rw [POST_success_answer key now [] (some "a") [c₁, c₂, c₃, c₄, c₅] hkey
    (by rw [isRateLimited_nil]) (by decide) (by decide) t₅ "gemini-2.5-flash"
    (by rw [hrm])]
  rw [hrm, isRateLimited_nil]
  rfl

/-- Witness for C10 at concrete inputs: four 60-character candidates for
the first configuration, then an 85-character immediate acceptance. -/
theorem retries_accumulate_witness :
    jsTrim "k" ≠ ""
    ∧ callGemini (.ok (mkData demo60 "STOP")) = .ok ⟨some demo60, "STOP"⟩
    ∧ callGemini (.ok (mkData demo85 "STOP")) = .ok ⟨some demo85, "STOP"⟩
    ∧ ("STOP" : String) ≠ "MAX_TOKENS"
    ∧ demo60.length = 60 ∧ demo85.length = 85
    ∧ ((∀ (up : String) (cfgs : List ModelConfig) (b : Option String) (r0 : Nat)
        (lastE : Option String) (calls : List HttpResponse),
        r0 ≤ (runModels up cfgs b r0 lastE calls).retries)
    ∧ POST "k" 0 [] (some "a")
        [.ok (mkData demo60 "STOP"), .ok (mkData demo60 "STOP"),
          .ok (mkData demo60 "STOP"), .ok (mkData demo60 "STOP"),
          .ok (mkData demo85 "STOP")]
        = ⟨.success demo85 "a" 3 "gemini-2.5-flash", [0], []⟩) :=
  ⟨by decide, rfl, rfl, by decide, by decide, by decide,
    retries_accumulate "k" 0 (.ok (mkData demo60 "STOP")) (.ok (mkData demo60 "STOP"))
      (.ok (mkData demo60 "STOP")) (.ok (mkData demo60 "STOP")) (.ok (mkData demo85 "STOP"))
      demo60 demo60 demo60 demo60 demo85 "STOP" "STOP" "STOP" "STOP" "STOP"
      (by decide) rfl (by decide) (by decide) rfl (by decide) (by decide)
      rfl (by decide) (by decide) rfl (by decide) (by decide)
      rfl (by decide) (by decide)⟩
